import Mathlib

/-!
Verification development for the DVID datastore core.

The development shallowly embeds the Go sources:
  * `src/storage/keyvalue.go` — type-specific keys (TKey), raw-byte key
    comparison, the sortable `TKeyValues` slice, and `getInstanceSizes`;
  * `src/unnamed/part_000` (package datastore, the Service file) — compact
    local IDs with big-endian encoding, `Open` with its error taxonomy,
    `Service.NewRepo`, `Service.NewVersion`, `Service.Batcher` and
    `Service.Shutdown`.

Go bytes are modelled as `Nat` values (0..255 in every construction taken
from the source; none of the proved properties performs wrapping
arithmetic), byte slices as `List Nat`, fallible calls as `Except`/`Option`
results, and the dynamic interface assertions of the Go runtime as boolean
capability flags supplied in an environment record.  Repository code that
is only referenced from the sources (the versioned `DataContext` get/put
machinery and `Repos.newChild`) is modelled from the spec; each such
definition carries a doc comment starting with `Modelled from the spec:`.
-/

namespace DVIDSpec

/-- Bytes are natural numbers; a key or value is a list of bytes. -/
abbrev Byte := Nat

/-- Embeds Go `bytes.Compare` (raw-byte memcmp lexicographic order):
result is 0 when the slices are equal, -1 when the first strictly
precedes, and 1 when it strictly follows.  A strict prefix precedes the
longer slice. -/
def bytesCompare : List Byte → List Byte → Int
  | [], [] => 0
  | [], _ :: _ => -1
  | _ :: _, [] => 1
  | a :: as, b :: bs =>
    if a < b then -1 else if b < a then 1 else bytesCompare as bs

/-- `tkeyMinByte` from src/storage/keyvalue.go. -/
def tkeyMinByte : Byte := 0x00

/-- `tkeyStandardByte` from src/storage/keyvalue.go. -/
def tkeyStandardByte : Byte := 0x01

/-- `tkeyMaxByte` from src/storage/keyvalue.go. -/
def tkeyMaxByte : Byte := 0xFF

/-- Embeds `NewTKey(class, tkey)`: `[class, 0x01, tkey...]`.  The Go
function copies `tkey` into the slice after the two marker bytes (a nil
slice is simply skipped, which coincides with the empty list here).  The
Go parameter name `class` is a Lean keyword, so it is `cls` here. -/
def NewTKey (cls : Byte) (tkey : List Byte) : List Byte :=
  cls :: tkeyStandardByte :: tkey

/-- Embeds `MinTKey(class)`: the lexicographically smallest TKey of the class. -/
def MinTKey (cls : Byte) : List Byte := [cls, tkeyMinByte]

/-- Embeds `MaxTKey(class)`: the lexicographically largest TKey of the class. -/
def MaxTKey (cls : Byte) : List Byte := [cls, tkeyMaxByte]

/-- Embeds `storage.TKeyValue`: a type-specific key-value pair. -/
structure TKeyValue where
  K : List Byte
  V : List Byte
  deriving DecidableEq

/-- Embeds `TKeyValues.Less(i, j)` from src/storage/keyvalue.go line 148:
`return bytes.Compare(kv[i].K, kv[j].K) <= 0`.  Go indexing panics out of
range; the claims only concern in-range indices, modelled with `getD`. -/
def TKeyValues.Less (kv : List TKeyValue) (i j : Nat) : Bool :=
  decide (bytesCompare ((kv.getD i ⟨[], []⟩).K) ((kv.getD j ⟨[], []⟩).K) ≤ 0)

/-- `LocalID32Size` is defined outside the given sources; the spec (and the
4-byte `binary.BigEndian.PutUint32` writes of the source) fix it at 4. -/
def LocalID32Size : Nat := 4

/-- Embeds `binary.BigEndian.PutUint32`: the four big-endian base-256
digits of a 32-bit value, most significant first. -/
def putUint32BE (x : Nat) : List Nat :=
  [x / 2 ^ 24 % 256, x / 2 ^ 16 % 256, x / 2 ^ 8 % 256, x % 256]

/-- Embeds `binary.BigEndian.Uint32`: recompose the first four bytes,
most significant first.  (The Go source does no length checking; `getD`
mirrors reading within a sufficiently long slice.) -/
def beUint32 (b : List Nat) : Nat :=
  b.getD 0 0 * 2 ^ 24 + b.getD 1 0 * 2 ^ 16 + b.getD 2 0 * 2 ^ 8 + b.getD 3 0

/-- `InstanceID` (a `dvid.LocalID32`, i.e. uint32). -/
abbrev InstanceID := Nat

/-- `RepoID` (a `dvid.LocalID32`, i.e. uint32). -/
abbrev RepoID := Nat

/-- `VersionID` (a `dvid.LocalID32`, i.e. uint32). -/
abbrev VersionID := Nat

/-- Embeds `InstanceID.Bytes()`: 4 bytes, big-endian.  (The id and byte
types are written as plain `Nat` here; `InstanceID` and `Byte` are
definitionally `Nat`.) -/
def InstanceID.Bytes (id : Nat) : List Nat := putUint32BE id

/-- Embeds `InstanceIDFromBytes(b)`: the decoded id and the byte count used. -/
def InstanceIDFromBytes (b : List Nat) : Nat × Nat :=
  (beUint32 b, LocalID32Size)

/-- Embeds `RepoID.Bytes()`: 4 bytes, big-endian. -/
def RepoID.Bytes (id : Nat) : List Nat := putUint32BE id

/-- Embeds `RepoIDFromBytes(b)`. -/
def RepoIDFromBytes (b : List Nat) : Nat × Nat :=
  (beUint32 b, LocalID32Size)

/-- Embeds `VersionID.Bytes()`: 4 bytes, big-endian. -/
def VersionID.Bytes (id : Nat) : List Nat := putUint32BE id

/-- Embeds `VersionIDFromBytes(b)`. -/
def VersionIDFromBytes (b : List Nat) : Nat × Nat :=
  (beUint32 b, LocalID32Size)

/-- ASCII bytes of "composer", one of the ordering examples documented in
the package comment of src/storage/keyvalue.go. -/
def strComposer : List Byte := [99, 111, 109, 112, 111, 115, 101, 114]

/-- ASCII bytes of "computer". -/
def strComputer : List Byte := [99, 111, 109, 112, 117, 116, 101, 114]

/-- ASCII bytes of "house". -/
def strHouse : List Byte := [104, 111, 117, 115, 101]

/-- ASCII bytes of "household". -/
def strHousehold : List Byte := [104, 111, 117, 115, 101, 104, 111, 108, 100]

/-- ASCII bytes of "Household". -/
def strHouseholdU : List Byte := [72, 111, 117, 115, 101, 104, 111, 108, 100]

/-- ASCII bytes of "H2O". -/
def strH2O : List Byte := [72, 50, 79]

/-- ASCII bytes of "HOTEL". -/
def strHOTEL : List Byte := [72, 79, 84, 69, 76]

/-- A slice holding two `TKeyValue`s with equal keys. -/
def kvEqPair : List TKeyValue := [⟨[104], []⟩, ⟨[104], []⟩]

/-- A slice holding two `TKeyValue`s with strictly increasing keys. -/
def kvOrderedPair : List TKeyValue := [⟨strHouse, []⟩, ⟨strHousehold, []⟩]

/-! ### Versioned data context (modelled from the spec)

The versioned `DataContext` Get/Put/Delete machinery is referenced by the
`KeyValueGetter`/`KeyValueSetter` interfaces of src/storage/keyvalue.go but
its implementation is not among the given sources. -/

/-- Modelled from the spec: a stored record at one `(version, tkey)` cell is
either a written value or a tombstone left by `Delete`. -/
inductive VEntry where
  | val (v : List Byte)
  | tombstone
  deriving DecidableEq

/-- Modelled from the spec: the versioned state of one data instance.
`parent` is the version DAG restricted to the single-predecessor chain a
`Get` walks (spec 4.C), `locked` the per-node lock flag (spec 4.E), and
`data` the last record written or tombstoned at each `(version, tkey)`
cell. -/
structure VStore where
  parent : VersionID → Option VersionID
  locked : VersionID → Bool
  data : VersionID → List Byte → Option VEntry

/-- Modelled from the spec: `Put(tkey, v)` writes the value at this
version, replacing any tombstone for the same cell. -/
def VStore.put (s : VStore) (v : VersionID) (k value : List Byte) : VStore :=
  { s with data := fun v2 k2 => if v2 = v ∧ k2 = k then some (.val value) else s.data v2 k2 }

/-- Modelled from the spec: `Delete(tkey)` writes a tombstone at this
version; prior versions remain intact. -/
def VStore.del (s : VStore) (v : VersionID) (k : List Byte) : VStore :=
  { s with data := fun v2 k2 => if v2 = v ∧ k2 = k then some .tombstone else s.data v2 k2 }

/-- Modelled from the spec: `Get(tkey)` walks from the current version
toward the root and returns the value at the closest ancestor (including
the version itself) whose cell was last written or tombstoned; a tombstone
yields "not found" (`none`).  `fuel` bounds the walk (the DAG is acyclic;
any fuel at least the chain length gives the full walk). -/
def VStore.getAt (s : VStore) : Nat → VersionID → List Byte → Option (List Byte)
  | 0, _, _ => none
  | fuel + 1, v, k =>
    match s.data v k with
    | some (.val x) => some x
    | some .tombstone => none
    | none =>
      match s.parent v with
      | some p => s.getAt fuel p k
      | none => none

/-- The ancestor chain of a version, closest first, cut off by `fuel`. -/
def VStore.chain (s : VStore) : Nat → VersionID → List VersionID
  | 0, _ => []
  | fuel + 1, v =>
    v :: (match s.parent v with
          | some p => s.chain fuel p
          | none => [])

/-- How one found record answers a `Get`: a value is returned, a tombstone
(or no record anywhere on the chain) is "not found". -/
def interpGet : Option VEntry → Option (List Byte)
  | some (.val x) => some x
  | _ => none

/-- Scenario store: versions 1 (root, locked) and 2 (child of 1, open),
no data yet. -/
def vBase : VStore :=
  { parent := fun v => if v = 2 then some 1 else none
    locked := fun v => v == 1
    data := fun _ _ => none }

/-- After `Put k=x at v1` (k = [107], x = [120]). -/
def vS1 : VStore := vBase.put 1 [107] [120]

/-- After additionally `Put k=y at v2` (y = [121]). -/
def vS2 : VStore := vS1.put 2 [107] [121]

/-- After additionally `Delete k at v2`. -/
def vS3 : VStore := vS2.del 2 [107]

/-! ### The datastore Service (src/unnamed/part_000) -/

/-- The interfaces the opened key-value engine does or does not satisfy:
in the source these are dynamic type assertions on the engine value.
`Open` asserts the three Ordered* interfaces; `Service.Batcher` asserts
`storage.Batcher`. -/
structure EngineCaps where
  orderedKVGetter : Bool
  orderedKVSetter : Bool
  orderedKVDB : Bool
  batcher : Bool
  deriving DecidableEq

/-- The interfaces the opened graph engine does or does not satisfy. -/
structure GraphCaps where
  graphSetter : Bool
  graphGetter : Bool
  graphDB : Bool
  deriving DecidableEq

/-- The environment `Open` runs in: whether each backend call it makes
succeeds, and which interfaces the opened engines satisfy.
`kvOpenOk` is `storage.NewKeyValueStore`, `graphOpenOk` is
`storage.NewGraphStore`, `loadOk` is `repos.Load`, and `verifyOk` is
`repos.VerifyCompiledTypes` (false when the loaded registry references a
datatype not compiled into the executable). -/
structure OpenEnv where
  kvOpenOk : Bool
  kv : EngineCaps
  graphOpenOk : Bool
  graph : GraphCaps
  loadOk : Bool
  verifyOk : Bool
  deriving DecidableEq

/-- Embeds `OpenErrorType` from src/unnamed/part_000. -/
inductive OpenErrorType where
  | ErrorOpening
  | ErrorRepos
  | ErrorDatatypeUnavailable
  deriving DecidableEq

/-- The capability projections a successfully opened `Service` holds. -/
structure ServiceM where
  kv : EngineCaps
  graph : GraphCaps
  deriving DecidableEq

/-- What one call of `Open` did: the Go named return values `s` and
`openErr`, plus whether each engine was opened by the call and whether
the call closed it before returning (the source contains no `Close()`
call inside `Open`, so the two `Closed` fields are false on every path). -/
structure OpenResult where
  s : Option ServiceM
  openErr : Option OpenErrorType
  kvEngineOpened : Bool
  graphEngineOpened : Bool
  kvEngineClosed : Bool
  graphEngineClosed : Bool
  deriving DecidableEq

/-- Embeds `Open(path)` from src/unnamed/part_000 lines 172-271: open the
key-value engine, assert its Ordered* interfaces, open the graph engine,
assert its Graph* interfaces, load the registry, verify compiled types;
the first failure returns the corresponding `OpenErrorType` with no
service, and no path closes an engine. -/
def Open (e : OpenEnv) : OpenResult :=
  if e.kvOpenOk = false then ⟨none, some .ErrorOpening, false, false, false, false⟩
  else if e.kv.orderedKVGetter = false then ⟨none, some .ErrorOpening, true, false, false, false⟩
  else if e.kv.orderedKVSetter = false then ⟨none, some .ErrorOpening, true, false, false, false⟩
  else if e.kv.orderedKVDB = false then ⟨none, some .ErrorOpening, true, false, false, false⟩
  else if e.graphOpenOk = false then ⟨none, some .ErrorOpening, true, false, false, false⟩
  else if e.graph.graphSetter = false then ⟨none, some .ErrorOpening, true, true, false, false⟩
  else if e.graph.graphGetter = false then ⟨none, some .ErrorOpening, true, true, false, false⟩
  else if e.graph.graphDB = false then ⟨none, some .ErrorOpening, true, true, false, false⟩
  else if e.loadOk = false then ⟨none, some .ErrorRepos, true, true, false, false⟩
  else if e.verifyOk = false then ⟨none, some .ErrorDatatypeUnavailable, true, true, false, false⟩
  else ⟨some ⟨e.kv, e.graph⟩, none, true, true, false, false⟩

/-- Embeds `Service.Batcher()`: a dynamic assertion of `storage.Batcher`
on the held kv setter; when it fails, the returned error is the
fixed "not supported" message and no I/O happens. -/
def ServiceM.Batcher (s : ServiceM) : Except String Unit :=
  if s.kv.batcher then .ok () else .error "DVID key-value store does not support batch write"

/-- Embeds `Service.OrderedKeyValueDB()`: always returns the held handle
with a nil error. -/
def ServiceM.OrderedKeyValueDB (_ : ServiceM) : Except String Unit := .ok ()

/-- The open/closed state of the two backend handles a `Service` holds
(`s.engine` and `s.graphengine`). -/
structure BackendHandles where
  kvOpen : Bool
  graphOpen : Bool
  deriving DecidableEq

/-- Embeds `Service.Shutdown()` from src/unnamed/part_000 lines 338-341:
the body is exactly `s.engine.Close()`, so only the key-value engine
handle is closed. -/
def ServiceShutdown (h : BackendHandles) : BackendHandles :=
  { kvOpen := false, graphOpen := h.graphOpen }

/-- The in-memory repo registry held by `Service.Repos`, abstracted to
what `NewRepo` touches: the list of repo ids and the allocation counter
(`newRepo` appends a freshly allocated repo). -/
structure RegistryM where
  list : List RepoID
  nextRepoID : RepoID
  deriving DecidableEq

/-- Embeds `Service.NewRepo()` from src/unnamed/part_000 lines 389-408.
Parameters `registryPutErr` and `repoPutErr` are the outcomes of the two
persistence calls `s.Repos.Put(s.kvSetter)` and `repo.Put(s.kvSetter)`
(`none` = success).  Result: the in-memory registry after the call, the
returned repo id (`none` where the Go named return keeps its zero value),
and the returned error.  As in the source: a nil registry errors out
before mutating; a registry-persist failure returns before the id is
assigned; a repo-persist failure still returns the id and the raw backend
error; no path reverts the in-memory registry. -/
def ServiceNewRepo (repos : Option RegistryM)
    (registryPutErr repoPutErr : Option String) :
    Option RegistryM × Option RepoID × Option String :=
  match repos with
  | none => (none, none, some "Datastore service has no repos available")
  | some r =>
    let newID := r.nextRepoID
    let r2 : RegistryM := { list := r.list ++ [newID], nextRepoID := newID + 1 }
    match registryPutErr with
    | some e => (some r2, none, some e)
    | none =>
      match repoPutErr with
      | some e => (some r2, some newID, some e)
      | none => (some r2, some newID, none)

/-- A node of a repo's version DAG, restricted to what `newChild`
touches. -/
structure DAGNode where
  locked : Bool
  children : List VersionID
  deriving DecidableEq

/-- Association-list lookup (first match wins), keys are UUIDs modelled
as naturals. -/
def alookup {α : Type} : List (Nat × α) → Nat → Option α
  | [], _ => none
  | (k, v) :: rest, key => if key = k then some v else alookup rest key

/-- A repo, restricted to what `newChild` touches: the DAG nodes keyed by
UUID, the version map UUID to VersionID, and the version-id allocation
counter. -/
structure RepoM where
  nodes : List (Nat × DAGNode)
  versionMap : List (Nat × VersionID)
  nextVersionID : VersionID
  deriving DecidableEq

/-- The errors `Service.NewVersion` can surface. -/
inductive DSErr where
  | noRepos
  | notFound
  | lockViolation
  | backendPut
  deriving DecidableEq

/-- Append the new version id to the parent node's children. -/
def appendChild (ns : List (Nat × DAGNode)) (parent : Nat) (vid : VersionID) :
    List (Nat × DAGNode) :=
  ns.map fun p =>
    (p.1, if p.1 = parent then { p.2 with children := p.2.children ++ [vid] } else p.2)

/-- Modelled from the spec: `Repos.newChild(parent)` is called by
`Service.NewVersion` but its body is not among the given sources.  Per
spec 4.E it requires the parent locked (else the lock-violation error),
allocates a new version id, and appends the child to `parent.children`
and to the repo's version map.  The fresh child UUID is abstracted as the
new version id itself. -/
def newChild (r : RepoM) (parent : Nat) : Except DSErr (RepoM × Nat) :=
  match alookup r.nodes parent with
  | none => .error .notFound
  | some node =>
    if node.locked then
      let vid := r.nextVersionID
      .ok ({ nodes := appendChild r.nodes parent vid ++ [(vid, ⟨false, []⟩)]
             versionMap := r.versionMap ++ [(vid, vid)]
             nextVersionID := vid + 1 }, vid)
    else .error .lockViolation

/-- Embeds `Service.NewVersion(parent)` from src/unnamed/part_000 lines
410-424: a nil registry errors out, else `newChild` runs, and on its
success the repo is persisted (`repo.Put(s.kvSetter)`, outcome `putOk`);
a persistence failure surfaces the backend error. -/
def ServiceNewVersion (repos : Option RepoM) (putOk : Bool) (parent : Nat) :
    Except DSErr (RepoM × Nat) :=
  match repos with
  | none => .error .noRepos
  | some r =>
    match newChild r parent with
    | .error e => .error e
    | .ok (r2, u) => if putOk then .ok (r2, u) else .error .backendPut

/-! ### getInstanceSizes (src/storage/keyvalue.go lines 410-429) -/

/-- Embeds `storage.KeyRange`: closed at `Start`, open at `OpenEnd`. -/
structure KeyRange where
  Start : List Byte
  OpenEnd : List Byte
  deriving DecidableEq

/-- Modelled from the spec: `constructDataKey` is referenced by
`getInstanceSizes` but defined outside the given sources; spec 6 fixes
the data-key layout `[dataPrefix, InstanceID(4 BE), VersionID(4 BE),
ClientID(4 BE), TKey...]`. -/
def constructDataKey (i v c : Nat) (tk : List Byte) : List Byte :=
  0x10 :: (putUint32BE i ++ putUint32BE v ++ putUint32BE c ++ tk)

/-- The package-level `minTKey` (the minimum TKey of the minimum class). -/
def minTKey : List Byte := MinTKey 0x00

/-- The key ranges `getInstanceSizes` builds, one per requested instance:
from the instance's first possible data key to the next instance's. -/
def sizeRanges (instances : List InstanceID) : List KeyRange :=
  instances.map fun curID =>
    { Start := constructDataKey curID 0 0 minTKey
      OpenEnd := constructDataKey (curID + 1) 0 0 minTKey }

/-- The map-building loop of `getInstanceSizes`: `sizes[curID] = s[i]` in
order, a later duplicate id overwriting an earlier one (Go map
assignment). -/
def buildSizes : List InstanceID → List Nat → (InstanceID → Option Nat) →
    (InstanceID → Option Nat)
  | [], _, m => m
  | _ :: _, [], m => m
  | id :: ids, sz :: szs, m =>
    buildSizes ids szs fun x => if x = id then some sz else m x

/-- Embeds `getInstanceSizes(sv, instances)`: build one range per
instance, ask the backend (`sv.GetApproximateSizes`), propagate its
error, reject a size slice whose length differs from the request, and
otherwise return the id-to-size map. -/
def getInstanceSizes (sv : List KeyRange → Except String (List Nat))
    (instances : List InstanceID) : Except String (InstanceID → Option Nat) :=
  match sv (sizeRanges instances) with
  | .error e => .error e
  | .ok s =>
    if s.length ≠ instances.length then
      .error "only got back fewer instance sizes than the requested instances"
    else
      .ok (buildSizes instances s fun _ => none)

/-! ### Concrete inputs used by counterexamples and witnesses -/

/-- A backend whose engine opens but implements only the plain
`KeyValueGetter`/`KeyValueSetter` interfaces (all Ordered* assertions
fail); everything later in `Open` would succeed. -/
def plainKVEnv : OpenEnv :=
  { kvOpenOk := true
    kv := { orderedKVGetter := false, orderedKVSetter := false, orderedKVDB := false,
            batcher := false }
    graphOpenOk := true
    graph := { graphSetter := true, graphGetter := true, graphDB := true }
    loadOk := true
    verifyOk := true }

/-- A fully capable backend without batch support. -/
def fullCapsEnv : OpenEnv :=
  { kvOpenOk := true
    kv := { orderedKVGetter := true, orderedKVSetter := true, orderedKVDB := true,
            batcher := false }
    graphOpenOk := true
    graph := { graphSetter := true, graphGetter := true, graphDB := true }
    loadOk := true
    verifyOk := true }

/-- The service `Open fullCapsEnv` produces. -/
def svcFull : ServiceM :=
  { kv := { orderedKVGetter := true, orderedKVSetter := true, orderedKVDB := true,
            batcher := false }
    graph := { graphSetter := true, graphGetter := true, graphDB := true } }

/-- A fully capable backend whose registry references a datatype that is
not compiled in (`VerifyCompiledTypes` fails). -/
def badTypesEnv : OpenEnv :=
  { fullCapsEnv with verifyOk := false }

/-- A one-repo registry: a single locked node with UUID 7 and version id
0, next version id 1. -/
def repoW : RepoM :=
  { nodes := [(7, { locked := true, children := [] })]
    versionMap := [(7, 0)]
    nextVersionID := 1 }

/-- A size backend answering `[1, 2]` to any request. -/
def svDup : List KeyRange → Except String (List Nat) := fun _ => .ok [1, 2]

/-- A size backend answering `[3, 4]` to any request. -/
def svOk : List KeyRange → Except String (List Nat) := fun _ => .ok [3, 4]

/-! ## Helper lemmas -/

/-- The recursive ancestor walk of `getAt` returns exactly the record of
the closest ancestor on the version chain that holds a record for the
key, interpreted by `interpGet`. -/
theorem VStore.getAt_eq_chain (s : VStore) (fuel : Nat) (v : VersionID) (k : List Byte) :
    s.getAt fuel v k = interpGet ((s.chain fuel v).findSome? fun a => s.data a k) := by
  induction fuel generalizing v with
  | zero => rfl
  | succ n ih =>
    simp only [VStore.getAt, VStore.chain, List.findSome?_cons]
    cases hd : s.data v k with
    | some e => cases e <;> rfl
    | none =>
      cases hp : s.parent v with
      | some p => exact ih p
      | none => rfl

/-- Looking a key up in a concatenation: the first list wins when it
binds the key. -/
theorem alookup_append_left {α : Type} (l1 l2 : List (Nat × α)) (k : Nat) (v : α)
    (h : alookup l1 k = some v) : alookup (l1 ++ l2) k = some v := by
  induction l1 with
  | nil => simp [alookup] at h
  | cons p rest ih =>
    rw [List.cons_append, alookup]
    rw [alookup] at h
    by_cases hk : k = p.1
    · simpa [hk] using h
    · simp only [hk, if_false] at h ⊢
      exact ih h

/-- Looking a key up in a concatenation: fall through to the second list
when the first does not bind the key. -/
theorem alookup_append_right {α : Type} (l1 l2 : List (Nat × α)) (k : Nat)
    (h : alookup l1 k = none) : alookup (l1 ++ l2) k = alookup l2 k := by
  induction l1 with
  | nil => rfl
  | cons p rest ih =>
    rw [List.cons_append, alookup]
    rw [alookup] at h
    by_cases hk : k = p.1
    · simp [hk] at h
    · simp only [hk, if_false] at h ⊢
      exact ih h

/-- `appendChild` rewrites exactly the entries keyed by the parent, so the
first lookup result gains the new child. -/
theorem alookup_appendChild (ns : List (Nat × DAGNode)) (parent : Nat) (vid : VersionID) :
    alookup (appendChild ns parent vid) parent =
      (alookup ns parent).map fun n => ⟨n.locked, n.children ++ [vid]⟩ := by
  induction ns with
  | nil => rfl
  | cons p rest ih =>
    obtain ⟨k0, v0⟩ := p
    by_cases hk : k0 = parent
    · subst hk
      simp [appendChild, alookup]
    · have hk2 : ¬parent = k0 := fun h => hk h.symm
      simp only [appendChild, List.map_cons, alookup, hk, if_false, hk2] at ih ⊢
      exact ih

/-- Appending a fresh repo changes the registry: the repo list grows by
one entry, so the result differs from every prior state. -/
theorem registry_append_ne (r : RegistryM) :
    some ({ list := r.list ++ [r.nextRepoID], nextRepoID := r.nextRepoID + 1 } : RegistryM) ≠
      some r := by
  intro h
  have h1 : ({ list := r.list ++ [r.nextRepoID], nextRepoID := r.nextRepoID + 1 } : RegistryM) = r :=
    Option.some_injective _ h
  have h2 : r.list ++ [r.nextRepoID] = r.list := congrArg RegistryM.list h1
  have := congrArg List.length h2
  simp at this

/-- `buildSizes` leaves ids that were never requested untouched. -/
theorem buildSizes_not_mem (ids : List InstanceID) (szs : List Nat)
    (m : InstanceID → Option Nat) (x : InstanceID) (hx : x ∉ ids) :
    buildSizes ids szs m x = m x := by
  induction ids generalizing szs m with
  | nil => rfl
  | cons id rest ih =>
    cases szs with
    | nil => rfl
    | cons sz szs =>
      have hxid : x ≠ id := fun h => hx (by simp [h])
      have hxrest : x ∉ rest := fun h => hx (List.mem_cons_of_mem _ h)
      rw [buildSizes, ih _ _ hxrest]
      simp [hxid]

/-- `Open` fails immediately with `ErrorOpening` when the key-value
engine cannot be opened. -/
theorem Open_kv_fail (e : OpenEnv) (h : e.kvOpenOk = false) :
    Open e = ⟨none, some .ErrorOpening, false, false, false, false⟩ := by
  obtain ⟨kvo, ⟨g1, s1, d1, b1⟩, go, ⟨gs, gg, gd⟩, lo, vo⟩ := e
  cases kvo
  · rfl
  · exact Bool.noConfusion h

/-- `Open` fails with `ErrorOpening` when the engine opened but its
ordered-getter assertion fails. -/
theorem Open_getter_fail (e : OpenEnv) (h1 : e.kvOpenOk = true)
    (h2 : e.kv.orderedKVGetter = false) :
    Open e = ⟨none, some .ErrorOpening, true, false, false, false⟩ := by
  obtain ⟨kvo, ⟨g1, s1, d1, b1⟩, go, ⟨gs, gg, gd⟩, lo, vo⟩ := e
  cases kvo
  · exact Bool.noConfusion h1
  · cases g1
    · rfl
    · exact Bool.noConfusion h2

/-- `Open` fails with `ErrorRepos` when everything up to the registry
load succeeded but the load failed. -/
theorem Open_load_fail (e : OpenEnv) (h1 : e.kvOpenOk = true)
    (h2 : e.kv.orderedKVGetter = true) (h3 : e.kv.orderedKVSetter = true)
    (h4 : e.kv.orderedKVDB = true) (h5 : e.graphOpenOk = true)
    (h6 : e.graph.graphSetter = true) (h7 : e.graph.graphGetter = true)
    (h8 : e.graph.graphDB = true) (h9 : e.loadOk = false) :
    Open e = ⟨none, some .ErrorRepos, true, true, false, false⟩ := by
  obtain ⟨kvo, ⟨g1, s1, d1, b1⟩, go, ⟨gs, gg, gd⟩, lo, vo⟩ := e
  cases kvo
  · exact Bool.noConfusion h1
  · cases g1
    · exact Bool.noConfusion h2
    · cases s1
      · exact Bool.noConfusion h3
      · cases d1
        · exact Bool.noConfusion h4
        · cases go
          · exact Bool.noConfusion h5
          · cases gs
            · exact Bool.noConfusion h6
            · cases gg
              · exact Bool.noConfusion h7
              · cases gd
                · exact Bool.noConfusion h8
                · cases lo
                  · rfl
                  · exact Bool.noConfusion h9

/-- `Open` fails with `ErrorDatatypeUnavailable` when everything up to
the compiled-type verification succeeded but the verification failed. -/
theorem Open_verify_fail (e : OpenEnv) (h1 : e.kvOpenOk = true)
    (h2 : e.kv.orderedKVGetter = true) (h3 : e.kv.orderedKVSetter = true)
    (h4 : e.kv.orderedKVDB = true) (h5 : e.graphOpenOk = true)
    (h6 : e.graph.graphSetter = true) (h7 : e.graph.graphGetter = true)
    (h8 : e.graph.graphDB = true) (h9 : e.loadOk = true) (h10 : e.verifyOk = false) :
    Open e = ⟨none, some .ErrorDatatypeUnavailable, true, true, false, false⟩ := by
  obtain ⟨kvo, ⟨g1, s1, d1, b1⟩, go, ⟨gs, gg, gd⟩, lo, vo⟩ := e
  cases kvo
  · exact Bool.noConfusion h1
  · cases g1
    · exact Bool.noConfusion h2
    · cases s1
      · exact Bool.noConfusion h3
      · cases d1
        · exact Bool.noConfusion h4
        · cases go
          · exact Bool.noConfusion h5
          · cases gs
            · exact Bool.noConfusion h6
            · cases gg
              · exact Bool.noConfusion h7
              · cases gd
                · exact Bool.noConfusion h8
                · cases lo
                  · exact Bool.noConfusion h9
                  · cases vo
                    · rfl
                    · exact Bool.noConfusion h10

/-- Whenever `Open` returns a service, the engine satisfied the three
Ordered* assertions and the service is exactly the capability record of
the engines. -/
theorem Open_s_caps (e : OpenEnv) (s : ServiceM) (h : (Open e).s = some s) :
    e.kv.orderedKVGetter = true ∧ e.kv.orderedKVSetter = true ∧ e.kv.orderedKVDB = true ∧
    s = ⟨e.kv, e.graph⟩ := by
  obtain ⟨kvo, ⟨g1, s1, d1, b1⟩, go, ⟨gs, gg, gd⟩, lo, vo⟩ := e
  cases kvo
  · exact Option.noConfusion h
  · cases g1
    · exact Option.noConfusion h
    · cases s1
      · exact Option.noConfusion h
      · cases d1
        · exact Option.noConfusion h
        · cases go
          · exact Option.noConfusion h
          · cases gs
            · exact Option.noConfusion h
            · cases gg
              · exact Option.noConfusion h
              · cases gd
                · exact Option.noConfusion h
                · cases lo
                  · exact Option.noConfusion h
                  · cases vo
                    · exact Option.noConfusion h
                    · exact ⟨rfl, rfl, rfl, (Option.some_injective _ h).symm⟩

/-- Every result of `Open` has either no error or no service. -/
theorem Open_err_no_service (e : OpenEnv) :
    (Open e).openErr = none ∨ (Open e).s = none := by
  obtain ⟨kvo, ⟨g1, s1, d1, b1⟩, go, ⟨gs, gg, gd⟩, lo, vo⟩ := e
  cases kvo
  · exact Or.inr rfl
  · cases g1
    · exact Or.inr rfl
    · cases s1
      · exact Or.inr rfl
      · cases d1
        · exact Or.inr rfl
        · cases go
          · exact Or.inr rfl
          · cases gs
            · exact Or.inr rfl
            · cases gg
              · exact Or.inr rfl
              · cases gd
                · exact Or.inr rfl
                · cases lo
                  · exact Or.inr rfl
                  · cases vo
                    · exact Or.inr rfl
                    · exact Or.inl rfl

/-- No path of `Open` closes either engine (the source contains no Close
call in `Open`). -/
theorem Open_no_close (e : OpenEnv) :
    (Open e).kvEngineClosed = false ∧ (Open e).graphEngineClosed = false := by
  obtain ⟨kvo, ⟨g1, s1, d1, b1⟩, go, ⟨gs, gg, gd⟩, lo, vo⟩ := e
  cases kvo
  · exact ⟨rfl, rfl⟩
  · cases g1
    · exact ⟨rfl, rfl⟩
    · cases s1
      · exact ⟨rfl, rfl⟩
      · cases d1
        · exact ⟨rfl, rfl⟩
        · cases go
          · exact ⟨rfl, rfl⟩
          · cases gs
            · exact ⟨rfl, rfl⟩
            · cases gg
              · exact ⟨rfl, rfl⟩
              · cases gd
                · exact ⟨rfl, rfl⟩
                · cases lo
                  · exact ⟨rfl, rfl⟩
                  · cases vo
                    · exact ⟨rfl, rfl⟩
                    · exact ⟨rfl, rfl⟩

/-- `buildSizes` keys an id's entry by the size at the id's last
occurrence among the requests. -/
theorem buildSizes_split :
    ∀ (l1 : List InstanceID) (s1 : List Nat) (m : InstanceID → Option Nat)
      (x : InstanceID) (l2 : List InstanceID) (sz : Nat) (s2 : List Nat),
      l1.length = s1.length → x ∉ l2 →
      buildSizes (l1 ++ x :: l2) (s1 ++ sz :: s2) m x = some sz := by
  intro l1
  induction l1 with
  | nil =>
    intro s1 m x l2 sz s2 hlen hx
    cases s1 with
    | nil =>
      simp only [List.nil_append, buildSizes]
      rw [buildSizes_not_mem _ _ _ _ hx]
      simp
    | cons b s1' => simp at hlen
  | cons a l1' ih =>
    intro s1 m x l2 sz s2 hlen hx
    cases s1 with
    | nil => simp at hlen
    | cons b s1' =>
      simp only [List.cons_append, buildSizes]
      exact ih s1' _ x l2 sz s2 (by simpa using hlen) hx

/-! ## Claim theorems -/

/-- Claim C1 (spec-modelled): versioned `Get` returns the record of the
closest ancestor of the current version (itself included) whose cell was
last written or tombstoned, a tombstone yielding "not found"; concretely,
with k put as x at the locked root v1 and v2 branched from v1: Get(v2,k)=x,
after writing y at v2 Get(v2,k)=y and Get(v1,k)=x, and after deleting k at
v2 Get(v2,k)=NotFound while Get(v1,k)=x. -/
theorem claimC1_versioned_get :
    (∀ (s : VStore) (fuel : Nat) (v : VersionID) (k : List Byte),
        s.getAt fuel v k = interpGet ((s.chain fuel v).findSome? fun a => s.data a k))
  ∧ vBase.locked 1 = true
  ∧ vBase.parent 2 = some 1
  ∧ vS1.getAt 4 2 [107] = some [120]
  ∧ vS2.getAt 4 2 [107] = some [121]
  ∧ vS2.getAt 4 1 [107] = some [120]
  ∧ vS3.getAt 4 2 [107] = none
  ∧ vS3.getAt 4 1 [107] = some [120] :=
  ⟨VStore.getAt_eq_chain, rfl, rfl, rfl, rfl, rfl, rfl, rfl⟩

/-- Claim C2, counterexample: the claim says `TKeyValues.Less(i,j)` holds
iff the key at `i` strictly precedes the key at `j` (so false on equal
keys); but on a slice with two equal keys the source's `<= 0` comparison
makes `Less 0 1` true while the keys compare equal, not strictly less. -/
theorem claimC2_less_counterexample :
    TKeyValues.Less kvEqPair 0 1 = true
  ∧ bytesCompare (kvEqPair.getD 0 ⟨[], []⟩).K (kvEqPair.getD 1 ⟨[], []⟩).K = 0
  ∧ (bytesCompare (kvEqPair.getD 0 ⟨[], []⟩).K (kvEqPair.getD 1 ⟨[], []⟩).K < 0) = False :=
  ⟨by decide, by decide, eq_false (by decide)⟩

/-- Claim C2 as amended: `TKeyValues.Less(i,j)` holds iff the key bytes at
`i` precede **or equal** the key bytes at `j` under `bytes.Compare`
(`Compare <= 0`, so `Less` is true on equal keys), and the comparison
satisfies the documented lexicographic examples: composer < computer,
house < household, Household < house, H2O < HOTEL. -/
theorem claimC2_less_amended (kv : List TKeyValue) (i j : Nat)
    (_hi : i < kv.length) (_hj : j < kv.length) :
    (TKeyValues.Less kv i j = true ↔
      bytesCompare ((kv.getD i ⟨[], []⟩).K) ((kv.getD j ⟨[], []⟩).K) ≤ 0)
  ∧ bytesCompare strComposer strComputer < 0
  ∧ bytesCompare strHouse strHousehold < 0
  ∧ bytesCompare strHouseholdU strHouse < 0
  ∧ bytesCompare strH2O strHOTEL < 0
  ∧ TKeyValues.Less kvOrderedPair 0 1 = true
  ∧ TKeyValues.Less kvOrderedPair 1 0 = false :=
  ⟨by simp [TKeyValues.Less], by decide, by decide, by decide, by decide, by decide, by decide⟩

/-- Witness for claim C2's amended theorem at the concrete in-range
indices 0 and 1 of `kvOrderedPair`. -/
theorem claimC2_less_amended_witness :
    (0 < kvOrderedPair.length ∧ 1 < kvOrderedPair.length)
  ∧ ((TKeyValues.Less kvOrderedPair 0 1 = true ↔
        bytesCompare ((kvOrderedPair.getD 0 ⟨[], []⟩).K) ((kvOrderedPair.getD 1 ⟨[], []⟩).K) ≤ 0)
    ∧ bytesCompare strComposer strComputer < 0
    ∧ bytesCompare strHouse strHousehold < 0
    ∧ bytesCompare strHouseholdU strHouse < 0
    ∧ bytesCompare strH2O strHOTEL < 0
    ∧ TKeyValues.Less kvOrderedPair 0 1 = true
    ∧ TKeyValues.Less kvOrderedPair 1 0 = false) :=
  ⟨⟨by decide, by decide⟩, claimC2_less_amended kvOrderedPair 0 1 (by decide) (by decide)⟩

/-- Claim C7: for every 32-bit id, the `Bytes()` encoding of InstanceID,
RepoID and VersionID is exactly 4 bytes in big-endian order (most
significant base-256 digit first), and the matching `FromBytes` decoder
returns the original id and reports length 4. -/
theorem claimC7_id_roundtrip (id : Nat) (h : id < 2 ^ 32) :
    InstanceID.Bytes id = [id / 2 ^ 24 % 256, id / 2 ^ 16 % 256, id / 2 ^ 8 % 256, id % 256]
  ∧ (InstanceID.Bytes id).length = 4
  ∧ InstanceIDFromBytes (InstanceID.Bytes id) = (id, 4)
  ∧ (RepoID.Bytes id).length = 4
  ∧ RepoIDFromBytes (RepoID.Bytes id) = (id, 4)
  ∧ (VersionID.Bytes id).length = 4
  ∧ VersionIDFromBytes (VersionID.Bytes id) = (id, 4) := by
  refine ⟨rfl, rfl, ?_, rfl, ?_, rfl, ?_⟩ <;>
  · simp [InstanceIDFromBytes, RepoIDFromBytes, VersionIDFromBytes, InstanceID.Bytes,
      RepoID.Bytes, VersionID.Bytes, putUint32BE, beUint32, LocalID32Size]
    omega

/-- Witness for claim C7 at the concrete id 0xdeadbeef = 3735928559. -/
theorem claimC7_id_roundtrip_witness :
    3735928559 < 2 ^ 32
  ∧ (InstanceID.Bytes 3735928559 =
        [3735928559 / 2 ^ 24 % 256, 3735928559 / 2 ^ 16 % 256, 3735928559 / 2 ^ 8 % 256,
          3735928559 % 256]
    ∧ (InstanceID.Bytes 3735928559).length = 4
    ∧ InstanceIDFromBytes (InstanceID.Bytes 3735928559) = (3735928559, 4)
    ∧ (RepoID.Bytes 3735928559).length = 4
    ∧ RepoIDFromBytes (RepoID.Bytes 3735928559) = (3735928559, 4)
    ∧ (VersionID.Bytes 3735928559).length = 4
    ∧ VersionIDFromBytes (VersionID.Bytes 3735928559) = (3735928559, 4)) :=
  ⟨by norm_num, claimC7_id_roundtrip 3735928559 (by norm_num)⟩

/-- Claim C9: for every class byte and every body (the empty body standing
for Go's nil), `NewTKey` has the shape [class, 0x01, body...], and in
raw-byte lexicographic order `MinTKey` = [class, 0x00] strictly precedes
it, which strictly precedes `MaxTKey` = [class, 0xFF]. -/
theorem claimC9_tkey_sentinels (cls : Byte) (b : List Byte) :
    NewTKey cls b = cls :: tkeyStandardByte :: b
  ∧ bytesCompare (MinTKey cls) (NewTKey cls b) < 0
  ∧ bytesCompare (NewTKey cls b) (MaxTKey cls) < 0 := by
  refine ⟨rfl, ?_, ?_⟩ <;>
    simp [NewTKey, MinTKey, MaxTKey, bytesCompare, tkeyMinByte, tkeyStandardByte, tkeyMaxByte]

/-- Witness for claim C9 at the concrete class 3 and body [7, 7]. -/
theorem claimC9_tkey_sentinels_witness :
    NewTKey 3 [7, 7] = 3 :: tkeyStandardByte :: [7, 7]
  ∧ bytesCompare (MinTKey 3) (NewTKey 3 [7, 7]) < 0
  ∧ bytesCompare (NewTKey 3 [7, 7]) (MaxTKey 3) < 0 :=
  claimC9_tkey_sentinels 3 [7, 7]

/-- Claim C3, counterexample: the claim says opening a backend that
implements only plain `KeyValueGetter`/`KeyValueSetter` succeeds with the
capability error deferred to handle-request time; but `Open` asserts the
Ordered* interfaces itself and fails with an `ErrorOpening` open error,
returning no service. -/
theorem claimC3_capability_counterexample :
    (Open plainKVEnv).openErr = some .ErrorOpening
  ∧ (Open plainKVEnv).s = none
  ∧ (Open plainKVEnv).kvEngineOpened = true := by decide

/-- Claim C3 as amended: `Open` itself requires the ordered key-value
capabilities — a backend lacking them fails at open with `ErrorOpening`
— so every successfully opened service holds the Ordered* capabilities;
the only capability check deferred to handle-request time is batching:
`Service.Batcher` returns the "not supported" error exactly when the
backend lacks the Batcher interface (with no I/O involved), while
accessors such as `OrderedKeyValueDB` always succeed on an open
service. -/
theorem claimC3_capability_amended (e : OpenEnv) (s : ServiceM)
    (h : (Open e).s = some s) :
    e.kv.orderedKVGetter = true ∧ e.kv.orderedKVSetter = true ∧ e.kv.orderedKVDB = true
  ∧ (s.Batcher = .error "DVID key-value store does not support batch write" ↔
       s.kv.batcher = false)
  ∧ s.OrderedKeyValueDB = .ok ()
  ∧ (∀ e2 : OpenEnv, e2.kvOpenOk = true → e2.kv.orderedKVGetter = false →
       (Open e2).openErr = some .ErrorOpening ∧ (Open e2).s = none) := by
  obtain ⟨hg, hs, hdb, hsvc⟩ := Open_s_caps e s h
  subst hsvc
  refine ⟨hg, hs, hdb, ?_, rfl, ?_⟩
  · cases hb : e.kv.batcher <;> simp [ServiceM.Batcher, hb]
  · intro e2 ha hb
    rw [Open_getter_fail e2 ha hb]
    exact ⟨rfl, rfl⟩

/-- Witness for claim C3's amended theorem: opening the fully capable
backend yields the service `svcFull`. -/
theorem claimC3_capability_amended_witness :
    (Open fullCapsEnv).s = some svcFull
  ∧ (fullCapsEnv.kv.orderedKVGetter = true ∧ fullCapsEnv.kv.orderedKVSetter = true ∧
       fullCapsEnv.kv.orderedKVDB = true
     ∧ (svcFull.Batcher = .error "DVID key-value store does not support batch write" ↔
          svcFull.kv.batcher = false)
     ∧ svcFull.OrderedKeyValueDB = .ok ()
     ∧ (∀ e2 : OpenEnv, e2.kvOpenOk = true → e2.kv.orderedKVGetter = false →
          (Open e2).openErr = some .ErrorOpening ∧ (Open e2).s = none)) :=
  ⟨by decide, claimC3_capability_amended fullCapsEnv svcFull (by decide)⟩

/-- Claim C4, counterexample: the claim says that when the second
persistence step of `NewRepo` fails after the first succeeded, the
in-memory repository state is reverted to its pre-mutation value; but on
the empty registry with a failing `repo.Put`, the in-memory registry
keeps the freshly created repo (id 0), which differs from the
pre-mutation registry. -/
theorem claimC4_rollback_counterexample :
    ServiceNewRepo (some { list := [], nextRepoID := 0 }) none (some "disk full") =
      (some { list := [0], nextRepoID := 1 }, some 0, some "disk full")
  ∧ ((some ({ list := [0], nextRepoID := 1 } : RegistryM) =
        some ({ list := [], nextRepoID := 0 } : RegistryM)) = False) :=
  ⟨rfl, eq_false (by decide)⟩

/-- Claim C4 as amended: `NewRepo` performs no rollback — when either
persistence step fails after `newRepo` mutated the registry, the
in-memory registry retains the new repo (so it differs from the
pre-mutation state) and the backend's error is returned unchanged; a
registry-persist failure additionally returns no repo id, while a
repo-persist failure still returns the new id. -/
theorem claimC4_rollback_amended (r : RegistryM) (e : String) :
    ServiceNewRepo (some r) none (some e) =
      (some { list := r.list ++ [r.nextRepoID], nextRepoID := r.nextRepoID + 1 },
       some r.nextRepoID, some e)
  ∧ (ServiceNewRepo (some r) none (some e)).1 ≠ some r
  ∧ ServiceNewRepo (some r) (some e) none =
      (some { list := r.list ++ [r.nextRepoID], nextRepoID := r.nextRepoID + 1 },
       none, some e)
  ∧ (ServiceNewRepo (some r) (some e) none).1 ≠ some r :=
  ⟨rfl, fun h => registry_append_ne r h, rfl, fun h => registry_append_ne r h⟩

/-- Claim C5 (spec-modelled `newChild`): `NewVersion(parent)` returns the
lock-violation error iff the parent node is unlocked; when the parent is
locked (and persistence succeeds) it allocates the next version id and
appends the child to the parent's children and to the repo's version
map. -/
theorem claimC5_lock_monotonicity (r : RepoM) (putOk : Bool) (parent : Nat)
    (node : DAGNode) (hfind : alookup r.nodes parent = some node)
    (hfresh : alookup r.versionMap r.nextVersionID = none) :
    (ServiceNewVersion (some r) putOk parent = .error .lockViolation ↔ node.locked = false)
  ∧ (node.locked = true → putOk = true →
      ∃ r2 : RepoM, ServiceNewVersion (some r) putOk parent = .ok (r2, r.nextVersionID)
        ∧ alookup r2.versionMap r.nextVersionID = some r.nextVersionID
        ∧ alookup r2.nodes parent =
            some { locked := node.locked, children := node.children ++ [r.nextVersionID] }
        ∧ r2.nextVersionID = r.nextVersionID + 1) := by
  constructor
  · simp only [ServiceNewVersion, newChild, hfind]
    cases hl : node.locked
    · simp
    · cases putOk <;> simp
  · intro hl hp
    subst hp
    refine ⟨{ nodes := appendChild r.nodes parent r.nextVersionID ++
                [(r.nextVersionID, { locked := false, children := [] })]
              versionMap := r.versionMap ++ [(r.nextVersionID, r.nextVersionID)]
              nextVersionID := r.nextVersionID + 1 }, ?_, ?_, ?_, rfl⟩
    · simp only [ServiceNewVersion, newChild, hfind, hl]
      simp
    · exact (alookup_append_right _ _ _ hfresh).trans (by simp [alookup])
    · have h1 := alookup_appendChild r.nodes parent r.nextVersionID
      rw [hfind] at h1
      exact alookup_append_left _ _ _ _ (by simpa using h1)

/-- Witness for claim C5 at the one-repo registry `repoW` with its locked
parent node 7. -/
theorem claimC5_lock_monotonicity_witness :
    (alookup repoW.nodes 7 = some { locked := true, children := [] }
     ∧ alookup repoW.versionMap repoW.nextVersionID = none)
  ∧ ((ServiceNewVersion (some repoW) true 7 = .error .lockViolation ↔
        ({ locked := true, children := [] } : DAGNode).locked = false)
    ∧ (({ locked := true, children := [] } : DAGNode).locked = true → true = true →
        ∃ r2 : RepoM, ServiceNewVersion (some repoW) true 7 = .ok (r2, repoW.nextVersionID)
          ∧ alookup r2.versionMap repoW.nextVersionID = some repoW.nextVersionID
          ∧ alookup r2.nodes 7 =
              some { locked := ({ locked := true, children := [] } : DAGNode).locked
                     children := ({ locked := true, children := [] } : DAGNode).children ++
                       [repoW.nextVersionID] }
          ∧ r2.nextVersionID = repoW.nextVersionID + 1)) :=
  ⟨⟨by decide, by decide⟩,
   claimC5_lock_monotonicity repoW true 7 { locked := true, children := [] }
     (by decide) (by decide)⟩

/-- Claim C6: a loaded registry referencing a datatype not compiled into
the executable makes `Open` fail with `ErrorDatatypeUnavailable`, a kind
distinct from `ErrorOpening` (backend-open failures) and `ErrorRepos`
(registry read failures); backend-open and registry failures return their
own kinds, and every failing `Open` returns no service. -/
theorem claimC6_open_error_kinds (e : OpenEnv)
    (hkv : e.kvOpenOk = true) (hg1 : e.kv.orderedKVGetter = true)
    (hg2 : e.kv.orderedKVSetter = true) (hg3 : e.kv.orderedKVDB = true)
    (hg4 : e.graphOpenOk = true) (hg5 : e.graph.graphSetter = true)
    (hg6 : e.graph.graphGetter = true) (hg7 : e.graph.graphDB = true)
    (hload : e.loadOk = true) (hverify : e.verifyOk = false) :
    (Open e).openErr = some .ErrorDatatypeUnavailable
  ∧ (Open e).s = none
  ∧ (OpenErrorType.ErrorDatatypeUnavailable = OpenErrorType.ErrorOpening) = False
  ∧ (OpenErrorType.ErrorDatatypeUnavailable = OpenErrorType.ErrorRepos) = False
  ∧ (∀ e2 : OpenEnv, e2.kvOpenOk = false →
       (Open e2).openErr = some .ErrorOpening ∧ (Open e2).s = none)
  ∧ (∀ e2 : OpenEnv, e2.kvOpenOk = true → e2.kv.orderedKVGetter = true →
       e2.kv.orderedKVSetter = true → e2.kv.orderedKVDB = true → e2.graphOpenOk = true →
       e2.graph.graphSetter = true → e2.graph.graphGetter = true → e2.graph.graphDB = true →
       e2.loadOk = false → (Open e2).openErr = some .ErrorRepos ∧ (Open e2).s = none)
  ∧ (∀ e2 : OpenEnv, (Open e2).openErr = none ∨ (Open e2).s = none) := by
  have hres := Open_verify_fail e hkv hg1 hg2 hg3 hg4 hg5 hg6 hg7 hload hverify
  rw [hres]
  refine ⟨rfl, rfl, eq_false (by decide), eq_false (by decide), ?_, ?_, Open_err_no_service⟩
  · intro e2 h2
    rw [Open_kv_fail e2 h2]
    exact ⟨rfl, rfl⟩
  · intro e2 a1 a2 a3 a4 a5 a6 a7 a8 a9
    rw [Open_load_fail e2 a1 a2 a3 a4 a5 a6 a7 a8 a9]
    exact ⟨rfl, rfl⟩

/-- Witness for claim C6 at the concrete environment `badTypesEnv`. -/
theorem claimC6_open_error_kinds_witness :
    (badTypesEnv.kvOpenOk = true ∧ badTypesEnv.kv.orderedKVGetter = true ∧
     badTypesEnv.kv.orderedKVSetter = true ∧ badTypesEnv.kv.orderedKVDB = true ∧
     badTypesEnv.graphOpenOk = true ∧ badTypesEnv.graph.graphSetter = true ∧
     badTypesEnv.graph.graphGetter = true ∧ badTypesEnv.graph.graphDB = true ∧
     badTypesEnv.loadOk = true ∧ badTypesEnv.verifyOk = false)
  ∧ ((Open badTypesEnv).openErr = some .ErrorDatatypeUnavailable
    ∧ (Open badTypesEnv).s = none
    ∧ (OpenErrorType.ErrorDatatypeUnavailable = OpenErrorType.ErrorOpening) = False
    ∧ (OpenErrorType.ErrorDatatypeUnavailable = OpenErrorType.ErrorRepos) = False
    ∧ (∀ e2 : OpenEnv, e2.kvOpenOk = false →
         (Open e2).openErr = some .ErrorOpening ∧ (Open e2).s = none)
    ∧ (∀ e2 : OpenEnv, e2.kvOpenOk = true → e2.kv.orderedKVGetter = true →
         e2.kv.orderedKVSetter = true → e2.kv.orderedKVDB = true → e2.graphOpenOk = true →
         e2.graph.graphSetter = true → e2.graph.graphGetter = true → e2.graph.graphDB = true →
         e2.loadOk = false → (Open e2).openErr = some .ErrorRepos ∧ (Open e2).s = none)
    ∧ (∀ e2 : OpenEnv, (Open e2).openErr = none ∨ (Open e2).s = none)) :=
  ⟨⟨rfl, rfl, rfl, rfl, rfl, rfl, rfl, rfl, rfl, rfl⟩,
   claimC6_open_error_kinds badTypesEnv rfl rfl rfl rfl rfl rfl rfl rfl rfl rfl⟩

/-- Claim C8, counterexample: the claim says every error return of `Open`
after the key-value engine was opened closes it, and that `Shutdown`
closes all backend handles; but an `Open` failing on the capability
assertions returns with the opened engine not closed, and `Shutdown`
closes only the key-value engine, leaving the graph engine open. -/
theorem claimC8_resource_counterexample :
    (Open plainKVEnv).kvEngineOpened = true
  ∧ (Open plainKVEnv).openErr = some .ErrorOpening
  ∧ (Open plainKVEnv).kvEngineClosed = false
  ∧ ServiceShutdown { kvOpen := true, graphOpen := true } =
      { kvOpen := false, graphOpen := true } := by decide

/-- Claim C8 as amended: no path of `Open` (error return or success)
closes either engine, and `Service.Shutdown` closes exactly the
key-value engine handle, leaving the graph engine handle as it was. -/
theorem claimC8_resource_amended :
    (∀ e : OpenEnv, (Open e).kvEngineClosed = false ∧ (Open e).graphEngineClosed = false)
  ∧ (∀ h : BackendHandles, ServiceShutdown h = { kvOpen := false, graphOpen := h.graphOpen }) := by
  exact ⟨Open_no_close, fun h => rfl⟩

/-- Claim C10, counterexample: the claim says that on success the i-th
returned size is keyed by the i-th requested instance; but requesting the
duplicate list [5, 5] against a backend returning sizes [1, 2] produces a
map sending 5 to 2 (the last occurrence), not to 1 as required for
i = 0. -/
theorem claimC10_sizes_counterexample :
    (getInstanceSizes svDup [5, 5]).map (fun f => f 5) = .ok (some 2)
  ∧ ((some 2 : Option Nat) = some 1) = False :=
  ⟨rfl, eq_false (by decide)⟩

/-- Claim C10 as amended: `getInstanceSizes` propagates a backend error
and rejects a size slice of the wrong length, returning an error and no
map in both cases; on success it returns a map that is `none` outside the
requested ids and sends each requested id to the size at that id's last
occurrence among the requests — in particular, when the requested ids are
pairwise distinct, the i-th size is keyed by the i-th instance. -/
theorem claimC10_sizes_amended (sv : List KeyRange → Except String (List Nat))
    (instances : List InstanceID) :
    (∀ msg, sv (sizeRanges instances) = .error msg →
       getInstanceSizes sv instances = .error msg)
  ∧ (∀ s, sv (sizeRanges instances) = .ok s → s.length ≠ instances.length →
       getInstanceSizes sv instances =
         .error "only got back fewer instance sizes than the requested instances")
  ∧ (∀ s, sv (sizeRanges instances) = .ok s → s.length = instances.length →
       ∃ f, getInstanceSizes sv instances = .ok f
         ∧ (∀ x, x ∉ instances → f x = none)
         ∧ (∀ (l1 : List InstanceID) (x : InstanceID) (l2 : List InstanceID)
              (s1 : List Nat) (sz : Nat) (s2 : List Nat),
              instances = l1 ++ x :: l2 → s = s1 ++ sz :: s2 →
              l1.length = s1.length → x ∉ l2 → f x = some sz)) := by
  refine ⟨?_, ?_, ?_⟩
  · intro msg hmsg
    unfold getInstanceSizes
    rw [hmsg]
  · intro s hs hne
    unfold getInstanceSizes
    rw [hs]
    simp [hne]
  · intro s hs hlen
    refine ⟨buildSizes instances s fun _ => none, ?_, ?_, ?_⟩
    · unfold getInstanceSizes
      rw [hs]
      simp [hlen]
    · intro x hx
      exact buildSizes_not_mem _ _ _ _ hx
    · intro l1 x l2 s1 sz s2 hi hs2 hlen2 hx
      subst hi
      subst hs2
      exact buildSizes_split l1 s1 _ x l2 sz s2 hlen2 hx

end DVIDSpec
